import Mathlib

/-!
Verification of the configuration module `docs/source/conf.py` of the
`bettercpp` repository.  The module is a flat sequence of assignments of
literal Python values to configuration names.  We embed the Python values
that occur in the file (strings, `None`, lists, tuples, dicts), the
expressions (literals and variable references), and the module itself as
an ordered list of assignment statements, evaluated sequentially over an
initial environment.
-/

namespace BetterCpp

/-- Python values occurring in the configuration file. -/
inductive PyValue where
  | str : String → PyValue
  | none : PyValue
  | list : List PyValue → PyValue
  | tuple : List PyValue → PyValue
  | dict : List (String × PyValue) → PyValue

/-- Python expressions occurring on the right-hand side of assignments:
a literal value, or a reference to a previously bound name. -/
inductive PyExpr where
  | lit : PyValue → PyExpr
  | var : String → PyExpr

/-- A module-level assignment statement `target = value`. -/
structure Stmt where
  target : String
  value : PyExpr

/-- Evaluate an expression in an environment (newest bindings first).
A reference to an unbound name fails, as in Python. -/
def evalExpr (env : List (String × PyValue)) : PyExpr → Option PyValue
  | PyExpr.lit v => some v
  | PyExpr.var n => env.lookup n

/-- Run a list of statements over an initial environment, threading the
environment through; each assignment prepends its binding. -/
def runStmts (env : List (String × PyValue)) : List Stmt → Option (List (String × PyValue))
  | [] => some env
  | s :: rest =>
    match evalExpr env s.value with
    | some v => runStmts ((s.target, v) :: env) rest
    | Option.none => Option.none

/-- `project = 'Better C++'` (conf.py line 5). -/
def project : PyValue := PyValue.str "Better C++"

/-- `copyright = '2024, Nhut Nguyen'` (conf.py line 6). -/
def copyright : PyValue := PyValue.str "2024, Nhut Nguyen"

/-- `author = 'Nhut Nguyen'` (conf.py line 7). -/
def author : PyValue := PyValue.str "Nhut Nguyen"

/-- `release = '0.1'` (conf.py line 9). -/
def release : PyValue := PyValue.str "0.1"

/-- `version = '0.1.0'` (conf.py line 10). -/
def version : PyValue := PyValue.str "0.1.0"

/-- `extensions = [...]` (conf.py lines 14-20). -/
def extensions : PyValue := PyValue.list
  [PyValue.str "sphinx.ext.duration",
   PyValue.str "sphinx.ext.doctest",
   PyValue.str "sphinx.ext.autodoc",
   PyValue.str "sphinx.ext.autosummary",
   PyValue.str "sphinx.ext.intersphinx"]

/-- `intersphinx_mapping = {...}` (conf.py lines 22-25); each value is a
pair of a URL and `None`. -/
def intersphinx_mapping : PyValue := PyValue.dict
  [("python", PyValue.tuple [PyValue.str "https://docs.python.org/3/", PyValue.none]),
   ("sphinx", PyValue.tuple [PyValue.str "https://www.sphinx-doc.org/en/master/", PyValue.none])]

/-- `intersphinx_disabled_domains = ['std']` (conf.py line 26). -/
def intersphinx_disabled_domains : PyValue := PyValue.list [PyValue.str "std"]

/-- `templates_path = ['_templates']` (conf.py line 28). -/
def templates_path : PyValue := PyValue.list [PyValue.str "_templates"]

/-- `master_doc = 'index'` (conf.py line 30). -/
def master_doc : PyValue := PyValue.str "index"

/-- `html_theme = 'furo'` (conf.py line 34). -/
def html_theme : PyValue := PyValue.str "furo"

/-- `html_title = 'Better C++'` (conf.py line 35). -/
def html_title : PyValue := PyValue.str "Better C++"

/-- `html_theme_options = {...}` (conf.py lines 37-42): every entry in the
dict literal is commented out, so the dict is empty. -/
def html_theme_options : PyValue := PyValue.dict []

/-- `latex_elements = {...}` (conf.py lines 45-67), keys in source order;
the `figure_align` entry is commented out.  The preamble is the raw
triple-quoted string of lines 57-62. -/
def latex_elements : PyValue := PyValue.dict
  [("papersize", PyValue.str "letterpaper"),
   ("sphinxsetup", PyValue.str "hmargin=\x7b1.2in,1.2in\x7d, vmargin=\x7b1.2in,1.2in\x7d"),
   ("pointsize", PyValue.str "12pt"),
   ("preamble", PyValue.str
     "\n                    \\usepackage\x7bcharter\x7d\n                    \\usepackage[defaultsans]\x7blato\x7d\n                    \\usepackage\x7binconsolata\x7d\n                    \\addto\\captionsenglish\x7b\\renewcommand\x7b\\contentsname\x7d\x7bContents\x7d\x7d\n                ")]

/-- `latex_show_urls = 'footnote'` (conf.py line 68). -/
def latex_show_urls : PyValue := PyValue.str "footnote"

/-- `latex_docclass = {'book': 'book'}` (conf.py lines 73-75). -/
def latex_docclass : PyValue := PyValue.dict [("book", PyValue.str "book")]

/-- The sixteen module-level assignments of conf.py, in source order;
commented-out assignments (`html_logo`, `latex_documents`,
`epub_show_urls`) are not statements. -/
def confStmts : List Stmt :=
  [⟨"project", PyExpr.lit project⟩,
   ⟨"copyright", PyExpr.lit copyright⟩,
   ⟨"author", PyExpr.lit author⟩,
   ⟨"release", PyExpr.lit release⟩,
   ⟨"version", PyExpr.lit version⟩,
   ⟨"extensions", PyExpr.lit extensions⟩,
   ⟨"intersphinx_mapping", PyExpr.lit intersphinx_mapping⟩,
   ⟨"intersphinx_disabled_domains", PyExpr.lit intersphinx_disabled_domains⟩,
   ⟨"templates_path", PyExpr.lit templates_path⟩,
   ⟨"master_doc", PyExpr.lit master_doc⟩,
   ⟨"html_theme", PyExpr.lit html_theme⟩,
   ⟨"html_title", PyExpr.lit html_title⟩,
   ⟨"html_theme_options", PyExpr.lit html_theme_options⟩,
   ⟨"latex_elements", PyExpr.lit latex_elements⟩,
   ⟨"latex_show_urls", PyExpr.lit latex_show_urls⟩,
   ⟨"latex_docclass", PyExpr.lit latex_docclass⟩]

/-- The binding of `name` after evaluating the module from the initial
environment `env`. -/
def confLookup (env : List (String × PyValue)) (name : String) : Option PyValue :=
  (runStmts env confStmts).bind (fun e => e.lookup name)

/-- The binding of `name` after evaluating the module from the empty
environment. -/
def confValue (name : String) : Option PyValue := confLookup [] name

/-- `v` is a string value. -/
def isStr : PyValue → Bool
  | PyValue.str _ => true
  | _ => false

/-- `v` is a list all of whose elements are strings. -/
def isListOfStr : PyValue → Bool
  | PyValue.list xs => xs.all isStr
  | _ => false

/-- `v` is a pair (2-tuple) of a string and `None`. -/
def isStrNonePair : PyValue → Bool
  | PyValue.tuple [x, y] =>
    isStr x && (match y with | PyValue.none => true | _ => false)
  | _ => false

/-- The value shape asserted by the specification: a string, a list of
strings, or a mapping from strings to strings or lists of strings. -/
def claimedShape (v : PyValue) : Bool :=
  isStr v || isListOfStr v ||
    (match v with
     | PyValue.dict entries => entries.all (fun e => isStr e.2 || isListOfStr e.2)
     | _ => false)

/-- The value shape that actually covers the file: additionally allows a
mapping value to be a pair of a string and `None` (as in
`intersphinx_mapping`). -/
def amendedShape (v : PyValue) : Bool :=
  isStr v || isListOfStr v ||
    (match v with
     | PyValue.dict entries =>
       entries.all (fun e => isStr e.2 || isListOfStr e.2 || isStrNonePair e.2)
     | _ => false)

/-- The expression is a literal. -/
def isLit : PyExpr → Bool
  | PyExpr.lit _ => true
  | PyExpr.var _ => false

/-- The statement assigns a literal value satisfying `p`. -/
def stmtShape (p : PyValue → Bool) (s : Stmt) : Bool :=
  match s.value with
  | PyExpr.lit v => p v
  | _ => false

/-- C1: evaluating the configuration module, from any initial environment,
binds `project` to `'Better C++'`, `author` to `'Nhut Nguyen'`, `version`
to `'0.1.0'` and `release` to `'0.1'`; these are the values every
evaluation yields. -/
theorem project_metadata_correct (env : List (String × PyValue)) :
    confLookup env "project" = some (PyValue.str "Better C++") ∧
    confLookup env "author" = some (PyValue.str "Nhut Nguyen") ∧
    confLookup env "version" = some (PyValue.str "0.1.0") ∧
    confLookup env "release" = some (PyValue.str "0.1") :=
  ⟨rfl, rfl, rfl, rfl⟩

/-- Witness for C1 at the empty initial environment. -/
theorem project_metadata_correct_witness :
    confLookup [] "project" = some (PyValue.str "Better C++") ∧
    confLookup [] "author" = some (PyValue.str "Nhut Nguyen") ∧
    confLookup [] "version" = some (PyValue.str "0.1.0") ∧
    confLookup [] "release" = some (PyValue.str "0.1") :=
  project_metadata_correct []

/-- C2: the enabled extension list is exactly the five strings
`sphinx.ext.duration`, `sphinx.ext.doctest`, `sphinx.ext.autodoc`,
`sphinx.ext.autosummary`, `sphinx.ext.intersphinx`, in that order. -/
theorem extensions_exact :
    confValue "extensions" = some (PyValue.list
      [PyValue.str "sphinx.ext.duration",
       PyValue.str "sphinx.ext.doctest",
       PyValue.str "sphinx.ext.autodoc",
       PyValue.str "sphinx.ext.autosummary",
       PyValue.str "sphinx.ext.intersphinx"]) := rfl

/-- C3 counterexample: the claim that `html_theme_options` contains at
least one option name bound to a value is false — the dict literal has
every entry commented out, so no entry exists. -/
theorem html_theme_options_nonempty_false :
    ¬ ∃ (k : String) (v : PyValue) (e : List (String × PyValue)),
      confValue "html_theme_options" = some (PyValue.dict e) ∧ (k, v) ∈ e := by
  rintro ⟨k, v, e, he, hm⟩
  have hempty : confValue "html_theme_options" = some (PyValue.dict []) := rfl
  rw [hempty] at he
  injection he with he
  injection he with he
  rw [← he] at hm
  exact absurd hm (List.not_mem_nil _)

/-- C3 amended: `html_theme_options` is defined, but as an empty mapping:
it binds no option name to a value. -/
theorem html_theme_options_is_empty :
    confValue "html_theme_options" = some (PyValue.dict []) := rfl

/-- C4: the HTML theme is selected by name, `html_theme = 'furo'`, and the
HTML title equals the book title, `html_title = 'Better C++'`. -/
theorem html_theme_and_title :
    confValue "html_theme" = some (PyValue.str "furo") ∧
    confValue "html_title" = some (PyValue.str "Better C++") :=
  ⟨rfl, rfl⟩

/-- C5: the intersphinx mapping links exactly `python` to
`https://docs.python.org/3/` and `sphinx` to
`https://www.sphinx-doc.org/en/master/`, each paired with `None`, and
`intersphinx_disabled_domains` is exactly `['std']`. -/
theorem intersphinx_config :
    confValue "intersphinx_mapping" = some (PyValue.dict
      [("python", PyValue.tuple [PyValue.str "https://docs.python.org/3/", PyValue.none]),
       ("sphinx", PyValue.tuple [PyValue.str "https://www.sphinx-doc.org/en/master/", PyValue.none])]) ∧
    confValue "intersphinx_disabled_domains" = some (PyValue.list [PyValue.str "std"]) :=
  ⟨rfl, rfl⟩

/-- C6: `latex_elements` sets `papersize` to `letterpaper`, `pointsize` to
`12pt`, `sphinxsetup` to 1.2in margins on all sides, and a non-empty
`preamble`; no `figure_align` key is set. -/
theorem latex_elements_settings :
    ∃ entries, confValue "latex_elements" = some (PyValue.dict entries) ∧
      entries.lookup "papersize" = some (PyValue.str "letterpaper") ∧
      entries.lookup "pointsize" = some (PyValue.str "12pt") ∧
      entries.lookup "sphinxsetup" =
        some (PyValue.str "hmargin=\x7b1.2in,1.2in\x7d, vmargin=\x7b1.2in,1.2in\x7d") ∧
      (∃ p, entries.lookup "preamble" = some (PyValue.str p) ∧ p ≠ "") ∧
      entries.lookup "figure_align" = Option.none := by
  refine ⟨_, rfl, rfl, rfl, rfl, ⟨_, rfl, ?_⟩, rfl⟩
  decide

/-- C7: `latex_docclass` is a mapping whose only entry maps `book` to
`book`. -/
theorem latex_docclass_book :
    confValue "latex_docclass" = some (PyValue.dict [("book", PyValue.str "book")]) := rfl

/-- C8 counterexample: not every configuration value is a string, a list
of strings, or a mapping to strings or lists of strings — the universal
claim fails on the module, and concretely on `intersphinx_mapping`, whose
mapping values are pairs of a string and `None`. -/
theorem value_shapes_claim_false :
    confStmts.all (stmtShape claimedShape) = false ∧
    claimedShape intersphinx_mapping = false :=
  ⟨rfl, rfl⟩

/-- C8 amended: every configuration value the file defines is a string, a
list of strings, or a mapping from strings to values that are strings,
lists of strings, or pairs of a string and `None`. -/
theorem value_shapes_amended :
    confStmts.all (stmtShape amendedShape) = true := rfl

/-- C9: each configuration name is assigned exactly once (the targets are
pairwise distinct), every right-hand side is a literal, and the binding
every evaluation yields for each configured name is independent of the
initial environment. -/
theorem single_assignment_static :
    (confStmts.map Stmt.target).Nodup ∧
    confStmts.all (fun s => isLit s.value) = true ∧
    ∀ (env₁ env₂ : List (String × PyValue)) (name : String),
      name ∈ confStmts.map Stmt.target →
      confLookup env₁ name = confLookup env₂ name := by
  refine ⟨by decide, rfl, ?_⟩
  intro env₁ env₂ name hmem
  fin_cases hmem <;> rfl

/-- Witness for C9: concrete distinct initial environments yield the same
binding for `project`. -/
theorem single_assignment_static_witness :
    confLookup [] "project" = confLookup [("extra", PyValue.str "x")] "project" :=
  single_assignment_static.2.2 [] [("extra", PyValue.str "x")] "project" (by decide)

/-- C10: the configuration also sets `master_doc = 'index'` and
`latex_show_urls = 'footnote'`. -/
theorem master_doc_and_show_urls :
    confValue "master_doc" = some (PyValue.str "index") ∧
    confValue "latex_show_urls" = some (PyValue.str "footnote") :=
  ⟨rfl, rfl⟩

end BetterCpp
